import Mathlib

/-!
# IBC message validation (cosmos-sdk, `x/ibc`)

A shallow embedding of the stateless message checks of the IBC client module
(`x/ibc/02-client/types/msgs.go`) and of the token-transfer message
(`x/ibc/20-transfer/types`), with the properties the specification states about
them.

Go conventions used throughout:

* a nil-able interface value (`error`, `sdk.Error`, `exported.ConsensusState`,
  `exported.Header`) is an `Option`; `none` is Go's `nil`;
* a function of another package whose body is not part of the sources at hand
  is a field of `Host`, so every theorem holds for all implementations of it.
-/

namespace Ibc

/-! ## Shared types -/

/-- Modelled from the spec: `sdk.AccAddress` (declared in `types/address.go`,
not among the sources) is a byte string; the only thing the messages ask of it
is whether it is empty. Bytes are natural numbers; a nil slice and an empty
slice are both the empty list. -/
structure AccAddress where
  bytes : List Nat
deriving DecidableEq, Repr

/-- Modelled from the spec: `AccAddress.Empty` (declared in `types/address.go`,
not among the sources) reports an address with no bytes ("empty addresses"). -/
def AccAddress.Empty (aa : AccAddress) : Bool :=
  aa.bytes.isEmpty

/-- The functions of other packages that `02-client/types/msgs.go` calls.
`E` is the type of non-nil Go `error` values, `SE` the type of non-nil
`sdk.Error` values and `CT` the type `exported.ClientType`. -/
structure Host (E SE CT : Type) where
  /-- The function `host.DefaultClientIdentifierValidator`: nil when the
  identifier is accepted. -/
  DefaultClientIdentifierValidator : String → Option E
  /-- The function `exported.ClientTypeFromString`, a Go pair
  `(ClientType, error)`. -/
  ClientTypeFromString : String → CT × Option E
  /-- The method `Error()` of a Go `error`. -/
  Error : E → String
  /-- The constant `errors.DefaultCodespace`. -/
  DefaultCodespace : String
  /-- The constructor `errors.ErrInvalidClientType(codespace, msg)`. -/
  ErrInvalidClientType : String → String → E
  /-- The constructor `errors.ErrInvalidConsensus(codespace)`. -/
  ErrInvalidConsensus : String → E
  /-- The constructor `errors.ErrInvalidHeader(codespace)`. -/
  ErrInvalidHeader : String → E
  /-- The function `sdk.ConvertError`, from `error` to `sdk.Error`. -/
  ConvertError : Option E → Option SE
  /-- The constructor `sdk.ErrInvalidAddress(msg)`. -/
  ErrInvalidAddress : String → SE

/-- The one property of `sdk.ConvertError` the message checks rely on: the
conversion of a non-nil error is a non-nil `sdk.Error`. -/
def Host.ConvertsErrors {E SE CT : Type} (env : Host E SE CT) : Prop :=
  ∀ e : E, env.ConvertError (some e) ≠ none

/-! ## `x/ibc/02-client/types/msgs.go` -/

/-- The struct `MsgCreateClient`; `CS` is the type of non-nil
`exported.ConsensusState` values. -/
structure MsgCreateClient (CS : Type) where
  ClientID : String
  ClientType : String
  ConsensusState : Option CS
  Signer : AccAddress

/-- The constructor `NewMsgCreateClient`. -/
def NewMsgCreateClient {CS : Type} (id clientType : String)
    (consensusState : Option CS) (signer : AccAddress) : MsgCreateClient CS :=
  { ClientID := id
    ClientType := clientType
    ConsensusState := consensusState
    Signer := signer }

/-- The method `MsgCreateClient.Type`. -/
def MsgCreateClient.Type {CS : Type} (_msg : MsgCreateClient CS) : String :=
  "create_client"

/-- The method `MsgCreateClient.ValidateBasic`: four checks in the order of the
source, each returning at the first failure. -/
def MsgCreateClient.ValidateBasic {E SE CT CS : Type} (env : Host E SE CT)
    (msg : MsgCreateClient CS) : Option SE :=
  match env.DefaultClientIdentifierValidator msg.ClientID with
  | some err => env.ConvertError (some err)
  | none =>
    match (env.ClientTypeFromString msg.ClientType).2 with
    | some err =>
      env.ConvertError
        (some (env.ErrInvalidClientType env.DefaultCodespace (env.Error err)))
    | none =>
      if msg.ConsensusState.isNone then
        env.ConvertError (some (env.ErrInvalidConsensus env.DefaultCodespace))
      else if msg.Signer.Empty then
        some (env.ErrInvalidAddress "empty address")
      else
        none

/-- The method `MsgCreateClient.GetSigners`. -/
def MsgCreateClient.GetSigners {CS : Type} (msg : MsgCreateClient CS) :
    List AccAddress :=
  [msg.Signer]

/-- The struct `MsgUpdateClient`; `H` is the type of non-nil `exported.Header`
values. -/
structure MsgUpdateClient (H : Type) where
  ClientID : String
  Header : Option H
  Signer : AccAddress

/-- The constructor `NewMsgUpdateClient`. -/
def NewMsgUpdateClient {H : Type} (id : String) (header : Option H)
    (signer : AccAddress) : MsgUpdateClient H :=
  { ClientID := id
    Header := header
    Signer := signer }

/-- The method `MsgUpdateClient.Type`. -/
def MsgUpdateClient.Type {H : Type} (_msg : MsgUpdateClient H) : String :=
  "update_client"

/-- The method `MsgUpdateClient.ValidateBasic`: three checks in the order of the
source, each returning at the first failure. -/
def MsgUpdateClient.ValidateBasic {E SE CT H : Type} (env : Host E SE CT)
    (msg : MsgUpdateClient H) : Option SE :=
  match env.DefaultClientIdentifierValidator msg.ClientID with
  | some err => env.ConvertError (some err)
  | none =>
    if msg.Header.isNone then
      env.ConvertError (some (env.ErrInvalidHeader env.DefaultCodespace))
    else if msg.Signer.Empty then
      some (env.ErrInvalidAddress "empty address")
    else
      none

/-- The method `MsgUpdateClient.GetSigners`. -/
def MsgUpdateClient.GetSigners {H : Type} (msg : MsgUpdateClient H) :
    List AccAddress :=
  [msg.Signer]

/-! ## Token transfer message (`x/ibc/20-transfer/types`)

`msgs_test.go` exercises `NewMsgTransfer` and `MsgTransfer.ValidateBasic`, whose
bodies are not among the sources; they are modelled from the specification's
validation rules (section 4.5) and Identifier rule (section 3). -/

/-- Modelled from the spec: the error taxonomy of section 7; the error values of
the absent transfer module are told apart by their kind only. -/
inductive ErrorKind where
  | ValidationError
  | NotFoundError
  | StateMismatchError
  | VerificationError
  | ExpiryError
  | DuplicateError
deriving DecidableEq, Repr

/-- Modelled from the spec: the Identifier rule for port and channel identifiers,
absent from the sources (package `24-host`): "a string, length-bounded
(empirically 10–20 for ports/channels ...), restricted to a defined alphabet".
The alphabet is the alphabetic characters: the test table calls an identifier
with a digit one that "contains non-alpha". -/
def ValidIdentifier (id : String) : Bool :=
  decide (10 ≤ id.length) && decide (id.length ≤ 20) && id.data.all Char.isAlpha

/-- Modelled from the spec: `sdk.Coin` (declared in `types/coin.go`, not among
the sources), a denomination with a signed amount (the test builds a coin with
amount `-100`). -/
structure Coin where
  Denom : String
  Amount : Int
deriving DecidableEq, Repr

/-- Modelled from the spec: `sdk.Coins`, a Go slice of coins. -/
abbrev Coins := List Coin

/-- Modelled from the spec: the bounds of the denomination pattern. The spec
says "a bounded alphanumeric pattern" and gives no numbers, so the two bounds
are parameters. -/
structure DenomPattern where
  minLen : Nat
  maxLen : Nat
deriving DecidableEq, Repr

/-- Modelled from the spec: "denomination strings must match a bounded
alphanumeric pattern". -/
def validateDenom (pat : DenomPattern) (denom : String) : Bool :=
  decide (pat.minLen ≤ denom.length) && decide (denom.length ≤ pat.maxLen)
    && denom.data.all Char.isAlphanum

/-- Modelled from the spec: `Coins.IsValid`, every denomination of the set
matches the denomination pattern. -/
def Coins.IsValid (pat : DenomPattern) (coins : Coins) : Bool :=
  coins.all (fun coin => validateDenom pat coin.Denom)

/-- Modelled from the spec: `Coin.IsPositive`, a strictly positive amount. -/
def Coin.IsPositive (coin : Coin) : Bool :=
  decide (0 < coin.Amount)

/-- Modelled from the spec: `Coins.IsAllPositive`, "amount must be a strictly
positive set of coin amounts". The test table of `msgs_test.go` lists the empty
set `sdk.Coins{}` as "not possitive coin": a set without coins is not a
strictly positive one. -/
def Coins.IsAllPositive (coins : Coins) : Bool :=
  !coins.isEmpty && coins.all Coin.IsPositive

/-- Modelled from the spec: the struct `MsgTransfer`, with the fields of the
Transfer message of section 6 and of the JSON in `TestMsgTransferGetSignBytes`. -/
structure MsgTransfer where
  SourcePort : String
  SourceChannel : String
  Amount : Coins
  Sender : AccAddress
  Receiver : AccAddress
  Source : Bool
deriving DecidableEq, Repr

/-- Modelled from the spec: the constructor `NewMsgTransfer`, with the argument
order of its calls in `msgs_test.go`. -/
def NewMsgTransfer (sourcePort sourceChannel : String) (amount : Coins)
    (sender receiver : AccAddress) (source : Bool) : MsgTransfer :=
  { SourcePort := sourcePort
    SourceChannel := sourceChannel
    Amount := amount
    Sender := sender
    Receiver := receiver
    Source := source }

/-- Modelled from the spec: `MsgTransfer.ValidateBasic`, absent from the sources.
Section 4.5: "amount must be a strictly positive set of coin amounts,
denomination strings must match a bounded alphanumeric pattern, sender/receiver
addresses must be non-empty, and port/channel identifiers must satisfy the
Identifier length/alphabet rule"; every failure is a ValidationError
(section 7). -/
def MsgTransfer.ValidateBasic (pat : DenomPattern) (msg : MsgTransfer) :
    Option ErrorKind :=
  if !ValidIdentifier msg.SourcePort then
    some ErrorKind.ValidationError
  else if !ValidIdentifier msg.SourceChannel then
    some ErrorKind.ValidationError
  else if !msg.Amount.IsValid pat then
    some ErrorKind.ValidationError
  else if !msg.Amount.IsAllPositive then
    some ErrorKind.ValidationError
  else if msg.Sender.Empty then
    some ErrorKind.ValidationError
  else if msg.Receiver.Empty then
    some ErrorKind.ValidationError
  else
    none

/-! ## Values of `msgs_test.go` -/

/-- The test address `sdk.AccAddress("testaddr1")`. -/
def addr1 : AccAddress := ⟨[116, 101, 115, 116, 97, 100, 100, 114, 49]⟩

/-- The test address `sdk.AccAddress("testaddr2")`. -/
def addr2 : AccAddress := ⟨[116, 101, 115, 116, 97, 100, 100, 114, 50]⟩

/-- The test address `emptyAddr`, a nil `sdk.AccAddress`. -/
def emptyAddr : AccAddress := ⟨[]⟩

/-- The test amount `coins`, parsed from "100atom". -/
def coins : Coins := [⟨"atom", 100⟩]

/-- The test amount `invalidDenomCoins`. -/
def invalidDenomCoins : Coins := [⟨"ato-m", 100⟩]

/-- The test amount `negativeCoins`. -/
def negativeCoins : Coins := [⟨"atom", 100⟩, ⟨"atoms", -100⟩]

/-- The test constant `invalidPort`. -/
def invalidPort : String := "invalidport1"

/-- The test constant `invalidShortPort`. -/
def invalidShortPort : String := "p"

/-- The test constant `invalidLongPort`. -/
def invalidLongPort : String := "invalidlongportinvalidlongport"

/-- The test constant `invalidChannel`. -/
def invalidChannel : String := "invalidchannel1"

/-- The test constant `invalidShortChannel`. -/
def invalidShortChannel : String := "invalidch"

/-- The test constant `invalidLongChannel`. -/
def invalidLongChannel : String := "invalidlongchannelinvalidlongchannel"

/-- The twelve messages `testMsgs` of `TestMsgTransferValidation`. -/
def testMsgs : List MsgTransfer :=
  [ NewMsgTransfer "testportid" "testchannel" coins addr1 addr2 true,
    NewMsgTransfer invalidShortPort "testchannel" coins addr1 addr2 true,
    NewMsgTransfer invalidLongPort "testchannel" coins addr1 addr2 true,
    NewMsgTransfer invalidPort "testchannel" coins addr1 addr2 true,
    NewMsgTransfer "testportid" invalidShortChannel coins addr1 addr2 true,
    NewMsgTransfer "testportid" invalidLongChannel coins addr1 addr2 false,
    NewMsgTransfer "testportid" invalidChannel coins addr1 addr2 false,
    NewMsgTransfer "testportid" "testchannel" invalidDenomCoins addr1 addr2 false,
    NewMsgTransfer "testportid" "testchannel" negativeCoins addr1 addr2 false,
    NewMsgTransfer "testportid" "testchannel" coins emptyAddr addr2 false,
    NewMsgTransfer "testportid" "testchannel" coins addr1 emptyAddr false,
    NewMsgTransfer "testportid" "testchannel" [] addr1 addr2 false ]

/-- The `expPass` column of the eleven rows of `testCases`. -/
def testCasesExpPass : List Bool :=
  [true, false, false, false, false, false, false, false, false, false, false]

/-- A denomination pattern admitting three to sixteen characters, on which the
examples are evaluated. -/
def samplePattern : DenomPattern := ⟨3, 16⟩

/-- One implementation of the host functions, on which the examples are
evaluated: client identifiers follow the Identifier rule, "tendermint" is the
one recognised client type, errors are their messages, and `ConvertError`
keeps the message. -/
def sampleHost : Host String String Nat where
  DefaultClientIdentifierValidator id :=
    if ValidIdentifier id then none else some "invalid identifier"
  ClientTypeFromString clientType :=
    if clientType = "tendermint" then (1, none)
    else (0, some ("unknown client type " ++ clientType))
  Error err := err
  DefaultCodespace := "client"
  ErrInvalidClientType codespace msg := codespace ++ ": invalid client type: " ++ msg
  ErrInvalidConsensus codespace := codespace ++ ": invalid consensus state"
  ErrInvalidHeader codespace := codespace ++ ": invalid header"
  ConvertError err := err
  ErrInvalidAddress msg := "invalid address: " ++ msg

/-! ## Properties of the client messages -/

/-- The sample host converts every error into an error. -/
theorem sampleHost_convertsErrors : sampleHost.ConvertsErrors :=
  fun e => Option.some_ne_none e

/-- C1: when `sdk.ConvertError` maps errors to errors,
`MsgCreateClient.ValidateBasic` returns nil if and only if the client
identifier validator accepts the ClientID, `ClientTypeFromString` succeeds on
the ClientType, the ConsensusState is non-nil and the Signer is non-empty. -/
theorem createClient_validateBasic_nil_iff {E SE CT CS : Type}
    (env : Host E SE CT) (hconv : env.ConvertsErrors) (msg : MsgCreateClient CS) :
    msg.ValidateBasic env = none ↔
      (env.DefaultClientIdentifierValidator msg.ClientID = none ∧
        (env.ClientTypeFromString msg.ClientType).2 = none ∧
        msg.ConsensusState ≠ none ∧
        msg.Signer.Empty = false) := by
  unfold MsgCreateClient.ValidateBasic
  cases hid : env.DefaultClientIdentifierValidator msg.ClientID with
  | some err => simpa using hconv err
  | none =>
    cases hty : (env.ClientTypeFromString msg.ClientType).2 with
    | some err => simpa using hconv _
    | none =>
      cases hcs : msg.ConsensusState with
      | none => simpa using hconv _
      | some cs => cases hs : msg.Signer.Empty <;> simp

/-- C1 at the sample host: a well-formed create message is accepted. -/
theorem createClient_validateBasic_nil_iff_witness :
    sampleHost.ConvertsErrors ∧
      ((NewMsgCreateClient "testclientid" "tendermint" (some ()) addr1).ValidateBasic
          sampleHost = none ↔
        (sampleHost.DefaultClientIdentifierValidator "testclientid" = none ∧
          (sampleHost.ClientTypeFromString "tendermint").2 = none ∧
          (some () : Option Unit) ≠ none ∧
          addr1.Empty = false)) :=
  ⟨sampleHost_convertsErrors,
    createClient_validateBasic_nil_iff sampleHost sampleHost_convertsErrors
      (NewMsgCreateClient "testclientid" "tendermint" (some ()) addr1)⟩

/-- C2: when `sdk.ConvertError` maps errors to errors,
`MsgUpdateClient.ValidateBasic` returns nil if and only if the client
identifier validator accepts the ClientID, the Header is non-nil and the
Signer is non-empty. -/
theorem updateClient_validateBasic_nil_iff {E SE CT H : Type}
    (env : Host E SE CT) (hconv : env.ConvertsErrors) (msg : MsgUpdateClient H) :
    msg.ValidateBasic env = none ↔
      (env.DefaultClientIdentifierValidator msg.ClientID = none ∧
        msg.Header ≠ none ∧
        msg.Signer.Empty = false) := by
  unfold MsgUpdateClient.ValidateBasic
  cases hid : env.DefaultClientIdentifierValidator msg.ClientID with
  | some err => simpa using hconv err
  | none =>
    cases hh : msg.Header with
    | none => simpa using hconv _
    | some h => cases hs : msg.Signer.Empty <;> simp

/-- C2 at the sample host: a well-formed update message is accepted. -/
theorem updateClient_validateBasic_nil_iff_witness :
    sampleHost.ConvertsErrors ∧
      ((NewMsgUpdateClient "testclientid" (some ()) addr1).ValidateBasic
          sampleHost = none ↔
        (sampleHost.DefaultClientIdentifierValidator "testclientid" = none ∧
          (some () : Option Unit) ≠ none ∧
          addr1.Empty = false)) :=
  ⟨sampleHost_convertsErrors,
    updateClient_validateBasic_nil_iff sampleHost sampleHost_convertsErrors
      (NewMsgUpdateClient "testclientid" (some ()) addr1)⟩

/-- C3: a create message whose ClientID is accepted and whose ClientType is
rejected by `ClientTypeFromString` with error `e` fails with the conversion of
`ErrInvalidClientType(DefaultCodespace, e.Error())`, for every ConsensusState
and Signer. -/
theorem createClient_unknown_clientType {E SE CT CS : Type}
    (env : Host E SE CT) (hconv : env.ConvertsErrors) (msg : MsgCreateClient CS)
    (e : E)
    (hid : env.DefaultClientIdentifierValidator msg.ClientID = none)
    (hty : (env.ClientTypeFromString msg.ClientType).2 = some e) :
    msg.ValidateBasic env =
        env.ConvertError
          (some (env.ErrInvalidClientType env.DefaultCodespace (env.Error e))) ∧
      msg.ValidateBasic env ≠ none := by
  have hval : msg.ValidateBasic env =
      env.ConvertError
        (some (env.ErrInvalidClientType env.DefaultCodespace (env.Error e))) := by
    simp only [MsgCreateClient.ValidateBasic, hid, hty]
  exact ⟨hval, hval ▸ hconv _⟩

/-- C3 at the sample host: the client type "solomachine" is not recognised,
with a nil consensus state and an empty signer besides. -/
theorem createClient_unknown_clientType_witness :
    sampleHost.ConvertsErrors ∧
      (NewMsgCreateClient "testclientid" "solomachine" (none : Option Unit)
          emptyAddr).ValidateBasic sampleHost =
        some "client: invalid client type: unknown client type solomachine" :=
  ⟨sampleHost_convertsErrors,
    (createClient_unknown_clientType sampleHost sampleHost_convertsErrors
      (NewMsgCreateClient "testclientid" "solomachine" (none : Option Unit) emptyAddr)
      "unknown client type solomachine" (by decide) (by decide)).1⟩

/-- C4: a create message with an accepted ClientID, a recognised ClientType and
a nil ConsensusState fails with the conversion of
`ErrInvalidConsensus(DefaultCodespace)`, for every Signer. -/
theorem createClient_nil_consensusState {E SE CT CS : Type}
    (env : Host E SE CT) (hconv : env.ConvertsErrors) (msg : MsgCreateClient CS)
    (hid : env.DefaultClientIdentifierValidator msg.ClientID = none)
    (hty : (env.ClientTypeFromString msg.ClientType).2 = none)
    (hcs : msg.ConsensusState = none) :
    msg.ValidateBasic env =
        env.ConvertError (some (env.ErrInvalidConsensus env.DefaultCodespace)) ∧
      msg.ValidateBasic env ≠ none := by
  have hval : msg.ValidateBasic env =
      env.ConvertError (some (env.ErrInvalidConsensus env.DefaultCodespace)) := by
    simp [MsgCreateClient.ValidateBasic, hid, hty, hcs]
  exact ⟨hval, hval ▸ hconv _⟩

/-- C4 at the sample host, with an empty signer besides. -/
theorem createClient_nil_consensusState_witness :
    sampleHost.ConvertsErrors ∧
      (NewMsgCreateClient "testclientid" "tendermint" (none : Option Unit)
          emptyAddr).ValidateBasic sampleHost =
        some "client: invalid consensus state" :=
  ⟨sampleHost_convertsErrors,
    (createClient_nil_consensusState sampleHost sampleHost_convertsErrors
      (NewMsgCreateClient "testclientid" "tendermint" (none : Option Unit) emptyAddr)
      (by decide) (by decide) rfl).1⟩

/-- C5: an update message with an accepted ClientID and a nil Header fails with
the conversion of `ErrInvalidHeader(DefaultCodespace)`, for every Signer. -/
theorem updateClient_nil_header {E SE CT H : Type}
    (env : Host E SE CT) (hconv : env.ConvertsErrors) (msg : MsgUpdateClient H)
    (hid : env.DefaultClientIdentifierValidator msg.ClientID = none)
    (hh : msg.Header = none) :
    msg.ValidateBasic env =
        env.ConvertError (some (env.ErrInvalidHeader env.DefaultCodespace)) ∧
      msg.ValidateBasic env ≠ none := by
  have hval : msg.ValidateBasic env =
      env.ConvertError (some (env.ErrInvalidHeader env.DefaultCodespace)) := by
    simp [MsgUpdateClient.ValidateBasic, hid, hh]
  exact ⟨hval, hval ▸ hconv _⟩

/-- C5 at the sample host, with an empty signer besides. -/
theorem updateClient_nil_header_witness :
    sampleHost.ConvertsErrors ∧
      (NewMsgUpdateClient "testclientid" (none : Option Unit)
          emptyAddr).ValidateBasic sampleHost =
        some "client: invalid header" :=
  ⟨sampleHost_convertsErrors,
    (updateClient_nil_header sampleHost sampleHost_convertsErrors
      (NewMsgUpdateClient "testclientid" (none : Option Unit) emptyAddr)
      (by decide) rfl).1⟩

/-- C9: in both `ValidateBasic` methods the client identifier is checked
first. When the validator rejects the identifier with error `e`, the result is
`sdk.ConvertError(e)`, whatever the client type, consensus state, header and
signer are. -/
theorem validateBasic_clientID_first {E SE CT CS H : Type}
    (env : Host E SE CT) (id : String) (e : E)
    (hid : env.DefaultClientIdentifierValidator id = some e)
    (clientType : String) (consensusState : Option CS) (header : Option H)
    (signer : AccAddress) :
    (NewMsgCreateClient id clientType consensusState signer).ValidateBasic env =
        env.ConvertError (some e) ∧
      (NewMsgUpdateClient id header signer).ValidateBasic env =
        env.ConvertError (some e) := by
  constructor
  · simp only [MsgCreateClient.ValidateBasic, NewMsgCreateClient, hid]
  · simp only [MsgUpdateClient.ValidateBasic, NewMsgUpdateClient, hid]

/-- C9 at the sample host: a one-character client identifier, with every other
field invalid as well. -/
theorem validateBasic_clientID_first_witness :
    sampleHost.DefaultClientIdentifierValidator "c" = some "invalid identifier" ∧
      (NewMsgCreateClient "c" "solomachine" (none : Option Unit)
          emptyAddr).ValidateBasic sampleHost = some "invalid identifier" ∧
      (NewMsgUpdateClient "c" (none : Option Unit) emptyAddr).ValidateBasic
          sampleHost = some "invalid identifier" :=
  ⟨by decide,
    validateBasic_clientID_first sampleHost "c" "invalid identifier" (by decide)
      "solomachine" (none : Option Unit) (none : Option Unit) emptyAddr⟩

/-- C10: `GetSigners` of a create or update message is the one-element list of
its Signer field, which for a message built by the constructor is the signer
argument; when `sdk.ConvertError` maps errors to errors, a message accepted by
`ValidateBasic` has exactly one required signer, and it is non-empty. -/
theorem getSigners_single {E SE CT CS H : Type}
    (env : Host E SE CT) (hconv : env.ConvertsErrors)
    (create : MsgCreateClient CS) (update : MsgUpdateClient H)
    (id clientType : String) (consensusState : Option CS) (header : Option H)
    (signer : AccAddress) :
    create.GetSigners = [create.Signer] ∧
      update.GetSigners = [update.Signer] ∧
      (NewMsgCreateClient id clientType consensusState signer).GetSigners
        = [signer] ∧
      (NewMsgUpdateClient id header signer).GetSigners = [signer] ∧
      (create.ValidateBasic env = none →
        create.GetSigners.length = 1 ∧
          ∀ a ∈ create.GetSigners, a.Empty = false) ∧
      (update.ValidateBasic env = none →
        update.GetSigners.length = 1 ∧
          ∀ a ∈ update.GetSigners, a.Empty = false) := by
  refine ⟨rfl, rfl, rfl, rfl, ?_, ?_⟩
  · intro hok
    refine ⟨rfl, ?_⟩
    intro a ha
    simp only [MsgCreateClient.GetSigners, List.mem_singleton] at ha
    subst ha
    revert hok
    unfold MsgCreateClient.ValidateBasic
    cases hid : env.DefaultClientIdentifierValidator create.ClientID with
    | some err => intro hok; exact absurd hok (hconv err)
    | none =>
      cases hty : (env.ClientTypeFromString create.ClientType).2 with
      | some err => intro hok; exact absurd hok (hconv _)
      | none =>
        cases hcs : create.ConsensusState with
        | none => intro hok; exact absurd hok (by simpa using hconv _)
        | some cs => cases hs : create.Signer.Empty <;> simp
  · intro hok
    refine ⟨rfl, ?_⟩
    intro a ha
    simp only [MsgUpdateClient.GetSigners, List.mem_singleton] at ha
    subst ha
    revert hok
    unfold MsgUpdateClient.ValidateBasic
    cases hid : env.DefaultClientIdentifierValidator update.ClientID with
    | some err => intro hok; exact absurd hok (hconv err)
    | none =>
      cases hh : update.Header with
      | none => intro hok; exact absurd hok (by simpa using hconv _)
      | some h => cases hs : update.Signer.Empty <;> simp

/-- C10 at the sample host: the accepted create and update messages signed by
`addr1` have `addr1` as their one, non-empty signer. -/
theorem getSigners_single_witness :
    sampleHost.ConvertsErrors ∧
      (NewMsgCreateClient "testclientid" "tendermint" (some ()) addr1).GetSigners
        = [addr1] ∧
      (NewMsgCreateClient "testclientid" "tendermint" (some ())
          addr1).ValidateBasic sampleHost = none ∧
      (NewMsgUpdateClient "testclientid" (some ()) addr1).ValidateBasic
          sampleHost = none ∧
      (∀ a ∈ (NewMsgCreateClient "testclientid" "tendermint" (some ())
          addr1).GetSigners, a.Empty = false) ∧
      (∀ a ∈ (NewMsgUpdateClient "testclientid" (some ()) addr1).GetSigners,
          a.Empty = false) :=
  have h := getSigners_single sampleHost sampleHost_convertsErrors
    (NewMsgCreateClient "testclientid" "tendermint" (some ()) addr1)
    (NewMsgUpdateClient "testclientid" (some ()) addr1)
    "testclientid" "tendermint" (some ()) (some ()) addr1
  ⟨sampleHost_convertsErrors, h.2.2.1, by decide, by decide,
    (h.2.2.2.2.1 (by decide)).2, (h.2.2.2.2.2 (by decide)).2⟩

/-! ## Properties of the transfer message -/

/-- A decimal digit is not an alphabetic character. -/
theorem isAlpha_false_of_isDigit (ch : Char) (h : ch.isDigit = true) :
    ch.isAlpha = false := by
  simp only [Char.isDigit, Char.isAlpha, Char.isUpper, Char.isLower,
    Bool.and_eq_true, Bool.or_eq_false_iff, Bool.and_eq_false_iff,
    decide_eq_true_eq, decide_eq_false_iff_not, ge_iff_le, UInt32.le_def,
    BitVec.le_def] at h ⊢
  have h48 : (UInt32.toBitVec 48).toNat = 48 := rfl
  have h57 : (UInt32.toBitVec 57).toNat = 57 := rfl
  have h65 : (UInt32.toBitVec 65).toNat = 65 := rfl
  have h97 : (UInt32.toBitVec 97).toNat = 97 := rfl
  omega

/-- The Identifier rule, spelled out: between 10 and 20 characters, all of them
alphabetic. -/
theorem validIdentifier_iff (id : String) :
    ValidIdentifier id = true ↔
      (10 ≤ id.length ∧ id.length ≤ 20 ∧ ∀ ch ∈ id.data, ch.isAlpha = true) := by
  simp [ValidIdentifier, and_assoc]

/-- What the modelled `MsgTransfer.ValidateBasic` accepts. -/
theorem transfer_validateBasic_nil (pat : DenomPattern) (msg : MsgTransfer) :
    msg.ValidateBasic pat = none ↔
      (ValidIdentifier msg.SourcePort = true ∧
        ValidIdentifier msg.SourceChannel = true ∧
        msg.Amount.IsValid pat = true ∧
        msg.Amount.IsAllPositive = true ∧
        msg.Sender.Empty = false ∧
        msg.Receiver.Empty = false) := by
  unfold MsgTransfer.ValidateBasic
  cases ValidIdentifier msg.SourcePort <;> cases ValidIdentifier msg.SourceChannel <;>
    cases msg.Amount.IsValid pat <;> cases msg.Amount.IsAllPositive <;>
    cases msg.Sender.Empty <;> cases msg.Receiver.Empty <;> simp

/-- The modelled `MsgTransfer.ValidateBasic` agrees with the eleven asserted rows
of `TestMsgTransferValidation`. -/
theorem transfer_test_table :
    (testMsgs.take 11).map (fun msg => (msg.ValidateBasic samplePattern).isNone)
      = testCasesExpPass := by
  decide

/-- The modelled `Coins.IsAllPositive`, spelled out: the set has a coin and every
coin has a strictly positive amount. -/
theorem isAllPositive_iff (amount : Coins) :
    amount.IsAllPositive = true ↔
      (amount ≠ [] ∧ ∀ coin ∈ amount, 0 < coin.Amount) := by
  cases amount <;> simp [Coins.IsAllPositive, Coin.IsPositive]

/-- C7: every message accepted by `ValidateBasic` has a source port and a source
channel of 10 to 20 characters, all alphabetic; so a port identifier of one
character, a channel identifier of nine characters, an identifier of thirty or
more characters and an identifier containing a digit are each rejected. -/
theorem transfer_accepted_identifiers (pat : DenomPattern) (msg : MsgTransfer) :
    (msg.ValidateBasic pat = none →
        (10 ≤ msg.SourcePort.length ∧ msg.SourcePort.length ≤ 20 ∧
          ∀ ch ∈ msg.SourcePort.data, ch.isAlpha = true) ∧
        (10 ≤ msg.SourceChannel.length ∧ msg.SourceChannel.length ≤ 20 ∧
          ∀ ch ∈ msg.SourceChannel.data, ch.isAlpha = true)) ∧
      (msg.SourcePort.length = 1 → msg.ValidateBasic pat ≠ none) ∧
      (msg.SourceChannel.length = 9 → msg.ValidateBasic pat ≠ none) ∧
      (30 ≤ msg.SourcePort.length ∨ 30 ≤ msg.SourceChannel.length →
        msg.ValidateBasic pat ≠ none) ∧
      ((∃ ch ∈ msg.SourcePort.data, ch.isDigit = true) ∨
          (∃ ch ∈ msg.SourceChannel.data, ch.isDigit = true) →
        msg.ValidateBasic pat ≠ none) := by
  have hacc : msg.ValidateBasic pat = none →
      (10 ≤ msg.SourcePort.length ∧ msg.SourcePort.length ≤ 20 ∧
          ∀ ch ∈ msg.SourcePort.data, ch.isAlpha = true) ∧
        (10 ≤ msg.SourceChannel.length ∧ msg.SourceChannel.length ≤ 20 ∧
          ∀ ch ∈ msg.SourceChannel.data, ch.isAlpha = true) := by
    intro hok
    have h := (transfer_validateBasic_nil pat msg).mp hok
    exact ⟨(validIdentifier_iff _).mp h.1, (validIdentifier_iff _).mp h.2.1⟩
  refine ⟨hacc, ?_, ?_, ?_, ?_⟩
  · intro hlen hok
    have h := (hacc hok).1.1
    omega
  · intro hlen hok
    have h := (hacc hok).2.1
    omega
  · intro hlen hok
    have hp := (hacc hok).1.2.1
    have hc := (hacc hok).2.2.1
    omega
  · intro hdig hok
    rcases hdig with ⟨ch, hmem, hd⟩ | ⟨ch, hmem, hd⟩
    · have halpha := (hacc hok).1.2.2 ch hmem
      rw [isAlpha_false_of_isDigit ch hd] at halpha
      exact Bool.noConfusion halpha
    · have halpha := (hacc hok).2.2.2 ch hmem
      rw [isAlpha_false_of_isDigit ch hd] at halpha
      exact Bool.noConfusion halpha

/-- C7 at the test messages: the first one is accepted and its identifiers are
within the bounds; the ones with `invalidShortPort`, `invalidShortChannel`,
`invalidLongPort` and `invalidChannel` are rejected. -/
theorem transfer_accepted_identifiers_witness :
    ((NewMsgTransfer "testportid" "testchannel" coins addr1 addr2
          true).ValidateBasic samplePattern = none ∧
        10 ≤ "testportid".length ∧ "testchannel".length ≤ 20) ∧
      (NewMsgTransfer invalidShortPort "testchannel" coins addr1 addr2
        true).ValidateBasic samplePattern ≠ none ∧
      (NewMsgTransfer "testportid" invalidShortChannel coins addr1 addr2
        true).ValidateBasic samplePattern ≠ none ∧
      (NewMsgTransfer invalidLongPort "testchannel" coins addr1 addr2
        true).ValidateBasic samplePattern ≠ none ∧
      (NewMsgTransfer "testportid" invalidChannel coins addr1 addr2
        false).ValidateBasic samplePattern ≠ none :=
  ⟨⟨by decide,
      ((transfer_accepted_identifiers samplePattern
        (NewMsgTransfer "testportid" "testchannel" coins addr1 addr2
          true)).1 (by decide)).1.1,
      ((transfer_accepted_identifiers samplePattern
        (NewMsgTransfer "testportid" "testchannel" coins addr1 addr2
          true)).1 (by decide)).2.2.1⟩,
    (transfer_accepted_identifiers samplePattern
      (NewMsgTransfer invalidShortPort "testchannel" coins addr1 addr2
        true)).2.1 (by decide),
    (transfer_accepted_identifiers samplePattern
      (NewMsgTransfer "testportid" invalidShortChannel coins addr1 addr2
        true)).2.2.1 (by decide),
    (transfer_accepted_identifiers samplePattern
      (NewMsgTransfer invalidLongPort "testchannel" coins addr1 addr2
        true)).2.2.2.1 (Or.inl (by decide)),
    (transfer_accepted_identifiers samplePattern
      (NewMsgTransfer "testportid" invalidChannel coins addr1 addr2
        false)).2.2.2.2 (Or.inr ⟨'1', by decide, by decide⟩)⟩

/-- C8: a message whose amount is the empty coin set is rejected by
`ValidateBasic` with a validation error, whatever its other fields are, valid
ones included. -/
theorem transfer_empty_amount_rejected (pat : DenomPattern) (msg : MsgTransfer)
    (hamount : msg.Amount = []) :
    msg.ValidateBasic pat = some ErrorKind.ValidationError := by
  unfold MsgTransfer.ValidateBasic
  rw [hamount]
  cases ValidIdentifier msg.SourcePort <;>
    cases ValidIdentifier msg.SourceChannel <;>
    simp [Coins.IsValid, Coins.IsAllPositive]

/-- C8 at the twelfth test message, whose port, channel, sender and receiver
are those of the accepted first one. -/
theorem transfer_empty_amount_rejected_witness :
    (NewMsgTransfer "testportid" "testchannel" [] addr1 addr2 false).Amount = [] ∧
      (NewMsgTransfer "testportid" "testchannel" [] addr1 addr2
        false).ValidateBasic samplePattern = some ErrorKind.ValidationError :=
  ⟨rfl,
    transfer_empty_amount_rejected samplePattern
      (NewMsgTransfer "testportid" "testchannel" [] addr1 addr2 false) rfl⟩

end Ibc
